import Mathlib

/-!
Verification of the structural-simulator repository.

Shallow embedding of the two numerical cores:

* `StructuralAnalysisService` and the `useStructuralSimulator` reducer and
  earthquake-damage tick (files `structuralAnalysisService.ts` and the
  simulator hook).  All arithmetic there is rational (`+ - * / min max abs`
  and comparisons), so it is embedded over `ℚ` and stays fully executable.
  The JavaScript `Math.random()` calls are made explicit: every function
  that draws randomness receives a stream `rand : ℕ → ℚ` whose value at
  `n` models the `n`-th draw (each draw lies in `[0,1)` in JS; no theorem
  below needs that bound).
* `CollapsePhysicsService`, which uses `Math.sqrt`, is embedded over `ℝ`
  with `Real.sqrt`.  `Date.now()` is threaded as an explicit `now`
  parameter, `Math.random()` as a stream `rand : ℕ → ℝ`.

Optional JS fields (`damageLevel?`, `currentStress?`, `fatigueFactor?`,
`isBroken?`) are always read through `|| 0` / falsy defaults in the code,
so they are embedded as total fields whose default is `0` / `false`.
String error and recommendation messages are embedded as inductive
constructors, one per distinct message template of the source.
-/

/-- Material properties, from `src/types/index.ts` (`MaterialProperties`). -/
structure MaterialProperties where
  name : String
  density : ℚ
  elasticModulus : ℚ
  yieldStrength : ℚ
  ultimateStrength : ℚ
  poissonRatio : ℚ
deriving DecidableEq, Repr

/-- The static material table of `src/constants/materials.ts`, as a lookup
function on material keys.  (Accents of the display names are dropped.) -/
def MATERIALS : String → Option MaterialProperties := fun s =>
  if s = "steel_S235" then
    some { name := "Acero S235", density := 7850, elasticModulus := 210000,
           yieldStrength := 235, ultimateStrength := 360, poissonRatio := 0.3 }
  else if s = "steel_S355" then
    some { name := "Acero S355", density := 7850, elasticModulus := 210000,
           yieldStrength := 355, ultimateStrength := 470, poissonRatio := 0.3 }
  else if s = "concrete_C25" then
    some { name := "Hormigon C25", density := 2400, elasticModulus := 30000,
           yieldStrength := 25, ultimateStrength := 30, poissonRatio := 0.2 }
  else if s = "concrete_C30" then
    some { name := "Hormigon C30", density := 2400, elasticModulus := 33000,
           yieldStrength := 30, ultimateStrength := 37, poissonRatio := 0.2 }
  else if s = "aluminum_6061" then
    some { name := "Aluminio 6061", density := 2700, elasticModulus := 69000,
           yieldStrength := 240, ultimateStrength := 310, poissonRatio := 0.33 }
  else none

/-- A structural node (`StructuralNode`): id, 3D position, optional mass
(read with default below where the code defaults it). -/
structure StructuralNode where
  id : String
  position : ℚ × ℚ × ℚ
  mass : ℚ
deriving DecidableEq, Repr

/-- A structural element (`StructuralBeam`).  The optional damage-state
fields are total here with their JS falsy defaults. -/
structure StructuralBeam where
  id : String
  nodeIds : String × String
  length : ℚ
  width : ℚ
  height : ℚ
  material : String
  elasticModulus : ℚ
  yieldStrength : ℚ
  mass : ℚ
  currentStress : ℚ
  damageLevel : ℚ
  fatigueFactor : ℚ
  isBroken : Bool
deriving DecidableEq, Repr

/-- A foundation (`StructuralFoundation`); only the fields the embedded
core reads. -/
structure StructuralFoundation where
  id : String
  soilResistance : ℚ
deriving DecidableEq, Repr

/-- The structural model (`StructuralModel`): node set, element set,
foundations and the per-model material table (an association list standing
for the JS record). -/
structure StructuralModel where
  nodes : List StructuralNode
  beams : List StructuralBeam
  foundations : List StructuralFoundation
  materials : List (String × MaterialProperties)
deriving DecidableEq, Repr

/-- Lookup in the material record of a model (`model.materials[key]`). -/
def lookupMaterial (materials : List (String × MaterialProperties))
    (key : String) : Option MaterialProperties :=
  (materials.find? (fun p => p.1 = key)).map (fun p => p.2)

/-- `model.nodes.find(n => n.id === id)`. -/
def findNode (nodes : List StructuralNode) (id : String) : Option StructuralNode :=
  nodes.find? (fun n => n.id = id)

/-- One recommendation message, one constructor per distinct string
template produced by `generateRecommendations`. -/
inductive Recommendation where
  | lowSafetyFactor
  | reinforceCritical (ids : List String)
  | reviewLoadDistribution
  | meetsBasicCriteria
deriving DecidableEq, Repr

/-- Analysis result (`StructuralAnalysis`). -/
structure StructuralAnalysis where
  maxDisplacement : ℚ
  maxStress : ℚ
  safetyFactor : ℚ
  criticalElements : List String
  recommendations : List Recommendation
deriving DecidableEq, Repr

namespace StructuralAnalysisService

/-- `calculateMaxDisplacement` of `structuralAnalysisService.ts`: the body is
`Math.random() * 50 + 10`; the draw index is passed explicitly. -/
def calculateMaxDisplacement (_beams : List StructuralBeam)
    (_nodes : List StructuralNode) (rand : ℕ → ℚ) (i : ℕ) : ℚ :=
  rand i * 50 + 10

/-- `calculateMaxStress`: per beam with a known material, draws one random
and folds a maximum; returns the maximum together with the next unused draw
index. -/
def calculateMaxStress (beams : List StructuralBeam) (rand : ℕ → ℚ)
    (i0 : ℕ) : ℚ × ℕ :=
  beams.foldl (fun acc beam =>
    match MATERIALS beam.material with
    | some material =>
        (max acc.1 (rand acc.2 * material.yieldStrength * 0.8
            + material.yieldStrength * 0.2), acc.2 + 1)
    | none => acc) (0, i0)

/-- `calculateSafetyFactor`. -/
def calculateSafetyFactor (beams : List StructuralBeam) (maxStress : ℚ) : ℚ :=
  let totalYieldStrength := beams.foldl (fun acc beam =>
    match MATERIALS beam.material with
    | some material => acc + material.yieldStrength * beam.length
    | none => acc) 0
  let totalAppliedStress := beams.foldl (fun acc beam =>
    match MATERIALS beam.material with
    | some _ => acc + maxStress * beam.length
    | none => acc) 0
  if totalAppliedStress = 0 then 2 else totalYieldStrength / totalAppliedStress

/-- `identifyCriticalElements` (keeps at most the first three ids). -/
def identifyCriticalElements (beams : List StructuralBeam) (maxStress : ℚ) :
    List String :=
  (beams.filterMap (fun beam =>
    match MATERIALS beam.material with
    | some material =>
        if maxStress / material.yieldStrength > 0.8 then some beam.id else none
    | none => none)).take 3

/-- `generateRecommendations`. -/
def generateRecommendations (beams : List StructuralBeam) (safetyFactor : ℚ)
    (criticalElements : List String) : List Recommendation :=
  let r1 : List Recommendation :=
    if safetyFactor < 1.5 then [Recommendation.lowSafetyFactor] else []
  let r2 : List Recommendation :=
    if criticalElements.length > 0 then
      [Recommendation.reinforceCritical criticalElements] else []
  let r3 : List Recommendation :=
    if beams.length > 10 then [Recommendation.reviewLoadDistribution] else []
  let recommendations := r1 ++ r2 ++ r3
  if recommendations.length = 0 then [Recommendation.meetsBasicCriteria]
  else recommendations

/-- `analyzeStructure`: in source order, the displacement draw happens
first (one `Math.random()`), then stress draws one random per beam with a
known material. -/
def analyzeStructure (model : StructuralModel) (rand : ℕ → ℚ) :
    StructuralAnalysis :=
  let maxDisplacement := calculateMaxDisplacement model.beams model.nodes rand 0
  let maxStress := (calculateMaxStress model.beams rand 1).1
  let safetyFactor := calculateSafetyFactor model.beams maxStress
  let criticalElements := identifyCriticalElements model.beams maxStress
  let recommendations :=
    generateRecommendations model.beams safetyFactor criticalElements
  { maxDisplacement := maxDisplacement, maxStress := maxStress,
    safetyFactor := safetyFactor, criticalElements := criticalElements,
    recommendations := recommendations }

/-- `calculateBeamStress` (deterministic; feeds the earthquake tick). -/
def calculateBeamStress (beam : StructuralBeam) (earthquakeIntensity : ℚ) : ℚ :=
  match MATERIALS beam.material with
  | none => 0
  | some material =>
      let baseStress := material.yieldStrength * 0.3
      let earthquakeFactor := earthquakeIntensity / 12
      baseStress + material.yieldStrength * 0.5 * earthquakeFactor

/-- One validation error, one constructor per distinct message template of
`validateStructure`. -/
inductive ValidationError where
  | noNodes
  | noBeams
  | invalidNodes (beamId : String)
  | invalidMaterial (beamId : String) (material : String)
deriving DecidableEq, Repr

/-- Result record of `validateStructure`. -/
structure ValidationResult where
  isValid : Bool
  errors : List ValidationError
deriving DecidableEq, Repr

/-- `validateStructure`: the four error groups are pushed in source order
(node count, beam count, per-beam connection check, per-beam material
check); `isValid` is `errors.length === 0`. -/
def validateStructure (model : StructuralModel) : ValidationResult :=
  let e1 : List ValidationError :=
    if model.nodes.length = 0 then [ValidationError.noNodes] else []
  let e2 : List ValidationError :=
    if model.beams.length = 0 then [ValidationError.noBeams] else []
  let e3 : List ValidationError := model.beams.filterMap (fun beam =>
    if (findNode model.nodes beam.nodeIds.1).isNone
        ∨ (findNode model.nodes beam.nodeIds.2).isNone then
      some (ValidationError.invalidNodes beam.id)
    else none)
  let e4 : List ValidationError := model.beams.filterMap (fun beam =>
    if (MATERIALS beam.material).isNone then
      some (ValidationError.invalidMaterial beam.id beam.material)
    else none)
  let errors := e1 ++ e2 ++ e3 ++ e4
  { isValid := errors.length = 0, errors := errors }

end StructuralAnalysisService

/-- The `analyzeStructure` callback of the hook (simulator hook): if a model is
loaded it dispatches `SET_ANALYSIS_RESULT` with
`StructuralAnalysisService.analyzeStructure(model)`; no validation is
performed on that path.  The returned value models the dispatched
analysis payload (`none` when no model is loaded). -/
def hookAnalyzeStructure (model? : Option StructuralModel) (rand : ℕ → ℚ) :
    Option StructuralAnalysis :=
  model?.map (fun m => StructuralAnalysisService.analyzeStructure m rand)

/-- The per-element earthquake-damage tick of the simulator hook
(`useStructuralSimulator`, damage effect): given the freshly computed
stress for this element, recompute damage, breakage and stored stress.
The two dispatches (`UPDATE_BEAM_DAMAGE` then `UPDATE_BEAM_PROPERTIES`
with `currentStress`) are merged into the single resulting element. -/
def earthquakeTickBeam (materials : List (String × MaterialProperties))
    (beam : StructuralBeam) (stress : ℚ) : StructuralBeam :=
  if beam.currentStress ≠ stress then
    match lookupMaterial materials beam.material with
    | some material =>
        let stressRatio := stress / material.yieldStrength
        let damageIncrement := max 0 (stressRatio - 0.3) * 0.15
        let newDamage := min 1 (beam.damageLevel + damageIncrement)
        let isBroken : Bool :=
          decide (newDamage ≥ 0.5 ∨ stress ≥ material.yieldStrength * 0.8)
        if |beam.damageLevel - newDamage| > 0.01 ∨ beam.isBroken ≠ isBroken then
          { beam with damageLevel := newDamage, isBroken := isBroken,
                      currentStress := stress }
        else beam
    | none => beam
  else beam

/-- The slice of the reducer state of the hook that the damage actions touch. -/
structure SimulatorState where
  structuralModel : Option StructuralModel
  isSimulating : Bool
deriving Repr

/-- Reducer case `RESET_STRUCTURAL_DAMAGE` of `simulatorReducer`. -/
def resetStructuralDamage (state : SimulatorState) : SimulatorState :=
  match state.structuralModel with
  | none => state
  | some model =>
      let newBeams := model.beams.map (fun beam =>
        { beam with damageLevel := 0, isBroken := false,
                    currentStress := 0, fatigueFactor := 0 })
      { state with structuralModel := some { model with beams := newBeams } }

/-- A 3-component real vector, standing for the JS `[number, number, number]`
triples of the collapse physics. -/
structure Vec3 where
  x : ℝ
  y : ℝ
  z : ℝ

/-- A falling rigid body (`FallingElement`). -/
structure FallingElement where
  elementId : String
  originalPosition : Vec3
  currentPosition : Vec3
  velocity : Vec3
  mass : ℝ
  isOnGround : Bool
  impactEnergy : ℝ
  hasCollided : Bool

/-- A pairwise collision log entry (`CollisionEvent`). -/
structure CollisionEvent where
  elementId : String
  collidedWith : String
  impactForce : ℝ
  timestamp : ℤ
  position : Vec3

/-- The collapse-simulation state (`CollapseSimulation`). -/
structure CollapseSimulation where
  fallingElements : List FallingElement
  collisionEvents : List CollisionEvent
  groundLevel : ℝ
  gravity : Vec3
  airResistance : ℝ
  groundFriction : ℝ
  isActive : Bool
  timestamp : ℤ

namespace CollapsePhysicsService

/-- The fixed integration step `TIME_STEP = 0.016` (60 FPS). -/
def TIME_STEP : ℝ := 0.016

/-- Euclidean norm of a `Vec3`, as `Math.sqrt(x**2 + y**2 + z**2)`. -/
noncomputable def Vec3.norm (v : Vec3) : ℝ :=
  Real.sqrt (v.x ^ 2 + v.y ^ 2 + v.z ^ 2)

/-- Distance between two positions, as computed in the source by
`Math.sqrt((ax-bx)**2 + (ay-by)**2 + (az-bz)**2)`. -/
noncomputable def dist3 (a b : Vec3) : ℝ :=
  Real.sqrt ((a.x - b.x) ^ 2 + (a.y - b.y) ^ 2 + (a.z - b.z) ^ 2)

/-- First step of `updateFallingElement`: gravity applied to the velocity
(`velocity + gravity * TIME_STEP`, componentwise). -/
def gravityStep (element : FallingElement) (simulation : CollapseSimulation) : Vec3 :=
  { x := element.velocity.x + simulation.gravity.x * TIME_STEP,
    y := element.velocity.y + simulation.gravity.y * TIME_STEP,
    z := element.velocity.z + simulation.gravity.z * TIME_STEP }

open scoped Classical in
/-- Second step of `updateFallingElement`: air resistance.  With
`airResistanceForce = airResistance * mass` and `speed = |newVelocity|`,
when `speed > 0` each component loses
`(component / speed) * airResistanceForce * TIME_STEP`. -/
noncomputable def dragStep (element : FallingElement)
    (simulation : CollapseSimulation) : Vec3 :=
  let nv := gravityStep element simulation
  let airResistanceForce := simulation.airResistance * element.mass
  let speed := Vec3.norm nv
  if speed > 0 then
    { x := nv.x - nv.x / speed * airResistanceForce * TIME_STEP,
      y := nv.y - nv.y / speed * airResistanceForce * TIME_STEP,
      z := nv.z - nv.z / speed * airResistanceForce * TIME_STEP }
  else nv

/-- Third step of `updateFallingElement`: position integration
(`currentPosition + newVelocity * TIME_STEP`). -/
noncomputable def integratedPosition (element : FallingElement)
    (simulation : CollapseSimulation) : Vec3 :=
  let nv := dragStep element simulation
  { x := element.currentPosition.x + nv.x * TIME_STEP,
    y := element.currentPosition.y + nv.y * TIME_STEP,
    z := element.currentPosition.z + nv.z * TIME_STEP }

open scoped Classical in
/-- `updateFallingElement`: gravity, drag, integration, then the ground
collision branch (`newPosition[1] <= groundLevel && !isOnGround`): clamp
`y` to the ground level, record `impactEnergy = 0.5 * mass * vy^2`, apply
ground friction to the horizontal components, zero the vertical one and
set the on-ground flag. -/
noncomputable def updateFallingElement (element : FallingElement)
    (simulation : CollapseSimulation) : FallingElement :=
  let nv := dragStep element simulation
  let np := integratedPosition element simulation
  if np.y ≤ simulation.groundLevel ∧ element.isOnGround = false then
    { element with
        currentPosition := { x := np.x, y := simulation.groundLevel, z := np.z },
        velocity := { x := nv.x * (1 - simulation.groundFriction), y := 0,
                      z := nv.z * (1 - simulation.groundFriction) },
        isOnGround := true,
        impactEnergy := 0.5 * element.mass * nv.y ^ 2 }
  else
    { element with currentPosition := np, velocity := nv }

/-- `calculateImpactForce`: `0.5 * (m1 + m2) * relativeSpeed ** 2`, where
`relativeSpeed` is the Euclidean norm of the velocity difference. -/
noncomputable def calculateImpactForce (element1 element2 : FallingElement) : ℝ :=
  let relativeSpeed := Vec3.norm
    { x := element1.velocity.x - element2.velocity.x,
      y := element1.velocity.y - element2.velocity.y,
      z := element1.velocity.z - element2.velocity.z }
  0.5 * (element1.mass + element2.mass) * relativeSpeed ^ 2

open scoped Classical in
/-- Loop body of `checkCollisions` for one `otherElement`: skip self,
then emit an event when within the collision radius `0.5` while this
`hasCollided` flag of the element is false. -/
noncomputable def collisionEventFor (element otherElement : FallingElement)
    (now : ℤ) : Option CollisionEvent :=
  if element.elementId = otherElement.elementId then none
  else if dist3 element.currentPosition otherElement.currentPosition < 0.5
      ∧ element.hasCollided = false then
    some { elementId := element.elementId,
           collidedWith := otherElement.elementId,
           impactForce := calculateImpactForce element otherElement,
           timestamp := now,
           position := element.currentPosition }
  else none

/-- `checkCollisions`: against every other element within the collision
radius `0.5`, and only while the `hasCollided` flag of this element is false,
emit a `CollisionEvent`.  (`Date.now()` is the explicit `now`.) -/
noncomputable def checkCollisions (element : FallingElement)
    (allElements : List FallingElement) (now : ℤ) : List CollisionEvent :=
  allElements.filterMap (fun otherElement =>
    collisionEventFor element otherElement now)

/-- Centroid of the two resolved end nodes of a beam, cast from the rational
node positions. -/
def beamCenter (nodeA nodeB : StructuralNode) : Vec3 :=
  { x := ((nodeA.position.1 + nodeB.position.1) / 2 : ℚ),
    y := ((nodeA.position.2.1 + nodeB.position.2.1) / 2 : ℚ),
    z := ((nodeA.position.2.2 + nodeB.position.2.2) / 2 : ℚ) }

open scoped Classical in
/-- Loop body of `checkImpactDamage` for one beam: an intact beam with
resolved end nodes whose centroid lies within `3.0` of the element is
returned marked broken with full damage when the stored impact energy
exceeds twice the `1000 J` threshold. -/
noncomputable def impactDamagedBeam (element : FallingElement)
    (nodes : List StructuralNode) (beam : StructuralBeam) :
    Option StructuralBeam :=
  if beam.isBroken then none
  else
    match findNode nodes beam.nodeIds.1, findNode nodes beam.nodeIds.2 with
    | some nodeA, some nodeB =>
        if dist3 element.currentPosition (beamCenter nodeA nodeB) < 3
            ∧ element.impactEnergy > 1000 * 2 then
          some { beam with isBroken := true, damageLevel := 1 }
        else none
    | _, _ => none

open scoped Classical in
/-- `checkImpactDamage`: when the stored impact energy of the element exceeds
the threshold `1000`, return copies of every intact beam whose centroid is
within `3.0` of the element and whose impact exceeds twice the threshold,
marked broken with full damage.  NOTE: `updateCollapseSimulation` calls
this function and discards its return value, so these copies never reach
the simulation state. -/
noncomputable def checkImpactDamage (element : FallingElement)
    (beams : List StructuralBeam) (nodes : List StructuralNode) :
    List StructuralBeam :=
  if element.impactEnergy > 1000 then
    beams.filterMap (fun beam => impactDamagedBeam element nodes beam)
  else []

/-- `addNewFallingElements`: for each collision event whose element id
resolves to a beam that is not broken and whose nodes resolve, spawn a new
falling body at the beam centroid with randomized initial velocity
(three draws per spawned body, threaded left to right through the event
list). -/
noncomputable def addNewFallingElements (collisionEvents : List CollisionEvent)
    (beams : List StructuralBeam) (nodes : List StructuralNode)
    (rand : ℕ → ℝ) (i0 : ℕ) : List FallingElement :=
  (collisionEvents.foldl (fun acc event =>
    match beams.find? (fun b => b.id = event.elementId) with
    | none => acc
    | some beam =>
        if beam.isBroken then acc
        else
          match findNode nodes beam.nodeIds.1, findNode nodes beam.nodeIds.2 with
          | some nodeA, some nodeB =>
              let c := beamCenter nodeA nodeB
              let i := acc.2
              (acc.1 ++ [{ elementId := beam.id,
                           originalPosition := c,
                           currentPosition := c,
                           velocity := { x := (rand i - 0.5) * 6,
                                         y := rand (i + 1) * 3,
                                         z := (rand (i + 2) - 0.5) * 6 },
                           mass := (beam.mass * beam.length : ℚ),
                           isOnGround := false,
                           impactEnergy := 0,
                           hasCollided := false }], i + 3)
          | _, _ => acc) (([] : List FallingElement), i0)).1

open scoped Classical in
/-- Whether one updated element keeps the simulation active: it is not on
the ground, or some velocity component exceeds `0.1` in absolute value
(`element.velocity.some(v => Math.abs(v) > 0.1)`). -/
noncomputable def elementActive (element : FallingElement) : Bool :=
  !element.isOnGround || decide (|element.velocity.x| > 0.1)
    || decide (|element.velocity.y| > 0.1) || decide (|element.velocity.z| > 0.1)

open scoped Classical in
/-- `updateCollapseSimulation`: inactive simulations are returned
unchanged.  Otherwise every falling element is integrated; its collisions
against the previous element list are appended to the event log; the
source also calls `checkImpactDamage(updatedElement, beams, nodes)` here
and drops the returned beams on the floor (no state receives them); new
bodies are spawned from the accumulated event list; finally the active
flag is recomputed from the updated bodies. -/
noncomputable def updateCollapseSimulation (simulation : CollapseSimulation)
    (beams : List StructuralBeam) (nodes : List StructuralNode)
    (now : ℤ) (rand : ℕ → ℝ) : CollapseSimulation :=
  if simulation.isActive = false then simulation
  else
    let updatedFallingElements := simulation.fallingElements.map
      (fun element => updateFallingElement element simulation)
    let newCollisionEvents := simulation.collisionEvents ++
      (simulation.fallingElements.map (fun element =>
        checkCollisions (updateFallingElement element simulation)
          simulation.fallingElements now)).flatten
    let newFallingElements :=
      addNewFallingElements newCollisionEvents beams nodes rand 0
    let allElements := updatedFallingElements ++ newFallingElements
    let isActive := allElements.any elementActive
    { simulation with
        fallingElements := allElements,
        collisionEvents := newCollisionEvents,
        isActive := isActive,
        timestamp := now }

end CollapsePhysicsService

/-! Concrete inputs used by witnesses and counterexamples. -/

/-- The S235 steel row of the material table. -/
def steel235 : MaterialProperties :=
  { name := "Acero S235", density := 7850, elasticModulus := 210000,
    yieldStrength := 235, ultimateStrength := 360, poissonRatio := 0.3 }

/-- A one-entry per-model material record. -/
def demoMaterials : List (String × MaterialProperties) := [("steel_S235", steel235)]

/-- A node at the origin. -/
def demoNode1 : StructuralNode := { id := "N1", position := (0, 0, 0), mass := 1 }

/-- A second node. -/
def demoNode2 : StructuralNode := { id := "N2", position := (1, 0, 0), mass := 1 }

/-- A steel element joining the two demo nodes, partly damaged. -/
def demoBeam : StructuralBeam :=
  { id := "B1", nodeIds := ("N1", "N2"), length := 2, width := 1, height := 1,
    material := "steel_S235", elasticModulus := 210000, yieldStrength := 235,
    mass := 3, currentStress := 0, damageLevel := 0.3, fatigueFactor := 0,
    isBroken := false }

/-- A well-formed demo model. -/
def demoModel : StructuralModel :=
  { nodes := [demoNode1, demoNode2], beams := [demoBeam], foundations := [],
    materials := demoMaterials }

/-- An element whose second node reference does not resolve. -/
def danglingBeam : StructuralBeam :=
  { id := "B9", nodeIds := ("N1", "N9"), length := 2, width := 1, height := 1,
    material := "steel_S235", elasticModulus := 210000, yieldStrength := 235,
    mass := 3, currentStress := 0, damageLevel := 0, fatigueFactor := 0,
    isBroken := false }

/-- A model with a dangling node reference. -/
def danglingModel : StructuralModel :=
  { nodes := [demoNode1], beams := [danglingBeam], foundations := [],
    materials := demoMaterials }

/-- An element broken by the overstress condition while its damage level is
still below `0.5`: stress `188 = 0.8 * 235` made it break on a previous
tick with damage only `0.075`. -/
def brokenDemoBeam : StructuralBeam :=
  { id := "B2", nodeIds := ("N1", "N2"), length := 2, width := 1, height := 1,
    material := "steel_S235", elasticModulus := 210000, yieldStrength := 235,
    mass := 3, currentStress := 188, damageLevel := 0.075, fatigueFactor := 0,
    isBroken := true }

/-- An element that reached damage `0.6` and broke. -/
def latchedBeam : StructuralBeam :=
  { id := "B3", nodeIds := ("N1", "N2"), length := 2, width := 1, height := 1,
    material := "steel_S235", elasticModulus := 210000, yieldStrength := 235,
    mass := 3, currentStress := 188, damageLevel := 0.6, fatigueFactor := 0,
    isBroken := true }

/-- Reducer state holding the demo model. -/
def demoState : SimulatorState :=
  { structuralModel := some demoModel, isSimulating := false }


/-- Falling body used by the fall-physics witnesses: one integration step
away from touching the ground. -/
def fallE6 : FallingElement :=
  { elementId := "F6", originalPosition := ⟨0, 1, 0⟩,
    currentPosition := ⟨0, 0.01, 0⟩, velocity := ⟨0, -1, 0⟩, mass := 2,
    isOnGround := false, impactEnergy := 0, hasCollided := false }

/-- Simulation state for the ground-collision witness: no gravity and no
drag, so the step evaluates exactly on rational points. -/
def simS6 : CollapseSimulation :=
  { fallingElements := [fallE6], collisionEvents := [], groundLevel := 0,
    gravity := ⟨0, 0, 0⟩, airResistance := 0, groundFriction := 0.5,
    isActive := true, timestamp := 0 }

/-- A settled body that landed earlier with a large stored impact
energy (`2500 J`, above twice the `1000 J` threshold). -/
def fallE7 : FallingElement :=
  { elementId := "F7", originalPosition := ⟨0, 0, 0⟩,
    currentPosition := ⟨0, 0, 0⟩, velocity := ⟨0, 0, 0⟩, mass := 1,
    isOnGround := true, impactEnergy := 2500, hasCollided := false }

/-- Simulation state around `fallE7`. -/
def simS7 : CollapseSimulation :=
  { fallingElements := [fallE7], collisionEvents := [], groundLevel := 0,
    gravity := ⟨0, 0, 0⟩, airResistance := 0, groundFriction := 0.6,
    isActive := true, timestamp := 0 }

/-- An intact beam whose centroid coincides with the resting position of
`fallE7`. -/
def beamB7 : StructuralBeam :=
  { id := "B7", nodeIds := ("N7A", "N7B"), length := 2, width := 1, height := 1,
    material := "steel_S235", elasticModulus := 210000, yieldStrength := 235,
    mass := 3, currentStress := 0, damageLevel := 0, fatigueFactor := 0,
    isBroken := false }

/-- First end node of `beamB7`. -/
def nodeN7A : StructuralNode := { id := "N7A", position := (-1, 0, 0), mass := 1 }

/-- Second end node of `beamB7`. -/
def nodeN7B : StructuralNode := { id := "N7B", position := (1, 0, 0), mass := 1 }

/-- End nodes of `beamB7`, centred on the origin. -/
def nodesN7 : List StructuralNode := [nodeN7A, nodeN7B]

/-- First of two coincident airborne bodies. -/
def fallEA : FallingElement :=
  { elementId := "FA", originalPosition := ⟨0, 5, 0⟩,
    currentPosition := ⟨0, 5, 0⟩, velocity := ⟨0, 0, 0⟩, mass := 1,
    isOnGround := false, impactEnergy := 0, hasCollided := false }

/-- Second coincident airborne body. -/
def fallEB : FallingElement :=
  { elementId := "FB", originalPosition := ⟨0, 5, 0⟩,
    currentPosition := ⟨0, 5, 0⟩, velocity := ⟨0, 0, 0⟩, mass := 1,
    isOnGround := false, impactEnergy := 0, hasCollided := false }

/-- Simulation state with the two coincident bodies. -/
def simS8 : CollapseSimulation :=
  { fallingElements := [fallEA, fallEB], collisionEvents := [], groundLevel := 0,
    gravity := ⟨0, 0, 0⟩, airResistance := 0, groundFriction := 0.6,
    isActive := true, timestamp := 0 }

/-- A grounded body whose per-component speeds are all below `0.1` while
its Euclidean speed `sqrt 0.0128` exceeds `0.1`. -/
def fallE9 : FallingElement :=
  { elementId := "F9", originalPosition := ⟨0, 0, 0⟩,
    currentPosition := ⟨0, 0, 0⟩, velocity := ⟨0.08, 0, 0.08⟩, mass := 1,
    isOnGround := true, impactEnergy := 0, hasCollided := false }

/-- Simulation state around `fallE9`. -/
def simS9 : CollapseSimulation :=
  { fallingElements := [fallE9], collisionEvents := [], groundLevel := 0,
    gravity := ⟨0, 0, 0⟩, airResistance := 0, groundFriction := 0.6,
    isActive := true, timestamp := 0 }

/-- An inactive (settled) collapse-simulation state. -/
def simS10 : CollapseSimulation :=
  { fallingElements := [], collisionEvents := [], groundLevel := 0,
    gravity := ⟨0, 0, 0⟩, airResistance := 0, groundFriction := 0.6,
    isActive := false, timestamp := 5 }

/-- The per-element field zeroing performed by `RESET_STRUCTURAL_DAMAGE`. -/
def resetBeamFields (beam : StructuralBeam) : StructuralBeam :=
  { beam with damageLevel := 0, isBroken := false, currentStress := 0,
              fatigueFactor := 0 }

/-! Claim theorems for the rational-arithmetic core. -/

/-- C1.  The claim says `analyzeStructure` is deterministic, with no
randomness in the stress/displacement computation.  The code draws
`maxDisplacement` and each per-beam stress from the unseeded random
stream, so two calls on the identical model disagree: with all draws `0`
the displacement is `10` mm, with all draws `1/2` it is `35` mm, and the
maximum stresses differ as well (`47` versus `141` MPa). -/
theorem c1_analysis_randomized :
    (StructuralAnalysisService.analyzeStructure demoModel (fun _ => 0)).maxDisplacement
        = 10 ∧
    (StructuralAnalysisService.analyzeStructure demoModel (fun _ => 1/2)).maxDisplacement
        = 35 ∧
    (StructuralAnalysisService.analyzeStructure demoModel (fun _ => 0)).maxStress
      ≠ (StructuralAnalysisService.analyzeStructure demoModel (fun _ => 1/2)).maxStress := by
  refine ⟨?_, ?_, ?_⟩ <;>
    norm_num [StructuralAnalysisService.analyzeStructure,
      StructuralAnalysisService.calculateMaxDisplacement,
      StructuralAnalysisService.calculateMaxStress,
      demoModel, demoBeam, MATERIALS, max_def]

/-- C2 counterexample.  For the model with a dangling node reference,
`validateStructure` does flag the error, but analysis is not refused:
the analyze path of the hook still produces an analysis result (it never
invokes the validator). -/
theorem c2_counterexample :
    (StructuralAnalysisService.validateStructure danglingModel).isValid = false ∧
    StructuralAnalysisService.ValidationError.invalidNodes ("B9") ∈
      (StructuralAnalysisService.validateStructure danglingModel).errors ∧
    hookAnalyzeStructure (some danglingModel) (fun _ => 0) ≠ none := by
  refine ⟨by decide, by decide, ?_⟩
  simp [hookAnalyzeStructure]

/-- C2, amended.  Whenever some element of a model has a node reference
that does not resolve, `validateStructure` reports the dangling reference
and is invalid; but no analysis path consults it: the analyze
callback produces an analysis result for that very model under every
random stream. -/
theorem c2_validation_flags_dangling (model : StructuralModel)
    (beam : StructuralBeam) (hmem : beam ∈ model.beams)
    (hdang : (findNode model.nodes beam.nodeIds.1).isNone = true
        ∨ (findNode model.nodes beam.nodeIds.2).isNone = true) :
    (StructuralAnalysisService.validateStructure model).isValid = false ∧
    StructuralAnalysisService.ValidationError.invalidNodes beam.id ∈
      (StructuralAnalysisService.validateStructure model).errors ∧
    ∀ rand : ℕ → ℚ, hookAnalyzeStructure (some model) rand ≠ none := by
  have hmemErr : StructuralAnalysisService.ValidationError.invalidNodes beam.id ∈
      (StructuralAnalysisService.validateStructure model).errors := by
    simp only [StructuralAnalysisService.validateStructure, List.mem_append]
    refine Or.inl (Or.inr ?_)
    exact List.mem_filterMap.mpr ⟨beam, hmem, if_pos hdang⟩
  have hlen : (StructuralAnalysisService.validateStructure model).errors.length ≠ 0 :=
    fun h0 => (List.ne_nil_of_mem hmemErr) (List.length_eq_zero.mp h0)
  refine ⟨decide_eq_false_iff_not.mpr hlen, hmemErr, ?_⟩
  intro rand
  simp [hookAnalyzeStructure]

/-- C3 counterexample.  `brokenDemoBeam` is broken with damage `0.075`.
At intensity `0` the deterministic per-beam stress of the tick is
`70.5 = 235 * 0.3`; running the earthquake damage tick on the broken
element with that stress switches its broken flag back to `false`: the
flag is not a latch. -/
theorem c3_counterexample :
    brokenDemoBeam.isBroken = true ∧
    StructuralAnalysisService.calculateBeamStress brokenDemoBeam 0 = 70.5 ∧
    (earthquakeTickBeam demoMaterials brokenDemoBeam
      (StructuralAnalysisService.calculateBeamStress brokenDemoBeam 0)).isBroken
        = false := by
  have hstress : StructuralAnalysisService.calculateBeamStress brokenDemoBeam 0 = 70.5 := by
    norm_num [StructuralAnalysisService.calculateBeamStress, brokenDemoBeam, MATERIALS]
  refine ⟨rfl, hstress, ?_⟩
  rw [hstress]
  norm_num [earthquakeTickBeam, brokenDemoBeam, demoMaterials, lookupMaterial,
    steel235, min_def, max_def]

/-- C3, amended.  The broken flag is recomputed every tick as
`newDamage ≥ 0.5 ∨ stress ≥ 0.8 * yield`, so it is a latch exactly for
elements whose damage level has reached `0.5`: for those the tick keeps
`isBroken = true` under every subsequent stress value; an element broken
by the overstress disjunct while its damage is below `0.5` can revert to
unbroken on a later tick with lower stress (see the counterexample). -/
theorem c3_latch_holds_above_half (materials : List (String × MaterialProperties))
    (beam : StructuralBeam) (stress : ℚ)
    (hd : 0.5 ≤ beam.damageLevel) (hb : beam.isBroken = true) :
    (earthquakeTickBeam materials beam stress).isBroken = true := by
  simp only [earthquakeTickBeam]
  split
  · split
    · split
      · rename_i material heq hguard
        have hnd : (0.5 : ℚ) ≤
            min 1 (beam.damageLevel + max 0 (stress / material.yieldStrength - 0.3) * 0.15) := by
          refine le_min (by norm_num) ?_
          have hinc : (0 : ℚ) ≤ max 0 (stress / material.yieldStrength - 0.3) * 0.15 :=
            mul_nonneg (le_max_left _ _) (by norm_num)
          linarith
        simp only [decide_eq_true_eq]
        exact Or.inl hnd
      · exact hb
    · exact hb
  · exact hb

/-- C3 witness for the amended latch: a broken element at damage `0.6`
stays broken under the tick at stress `70.5`. -/
theorem c3_witness :
    (0.5 : ℚ) ≤ latchedBeam.damageLevel ∧ latchedBeam.isBroken = true ∧
    (earthquakeTickBeam demoMaterials latchedBeam 70.5).isBroken = true :=
  ⟨by norm_num [latchedBeam], rfl,
    c3_latch_holds_above_half demoMaterials latchedBeam 70.5 (by norm_num [latchedBeam]) rfl⟩

/-- C4.  For every element with a damage level in the admissible range
(`≤ 1`) and every stress value, the earthquake damage tick never lowers
the damage level: the increment `max 0 (ratio - 0.3) * 0.15` is
non-negative and the new level `min 1 (old + increment)` is clamped at
`1`, so damage is monotonically non-decreasing across ticks. -/
theorem c4_damage_monotone (materials : List (String × MaterialProperties))
    (beam : StructuralBeam) (stress : ℚ) (h : beam.damageLevel ≤ 1) :
    beam.damageLevel ≤ (earthquakeTickBeam materials beam stress).damageLevel := by
  simp only [earthquakeTickBeam]
  split
  · split
    · split
      · rename_i material heq hguard
        show beam.damageLevel ≤
          min 1 (beam.damageLevel + max 0 (stress / material.yieldStrength - 0.3) * 0.15)
        refine le_min h ?_
        have hinc : (0 : ℚ) ≤ max 0 (stress / material.yieldStrength - 0.3) * 0.15 :=
          mul_nonneg (le_max_left _ _) (by norm_num)
        linarith
      · exact le_refl _
    · exact le_refl _
  · exact le_refl _

/-- C4 witness: the demo element at damage `0.3` under stress `200`. -/
theorem c4_witness :
    demoBeam.damageLevel ≤ 1 ∧
    demoBeam.damageLevel ≤ (earthquakeTickBeam demoMaterials demoBeam 200).damageLevel :=
  ⟨by norm_num [demoBeam],
    c4_damage_monotone demoMaterials demoBeam 200 (by norm_num [demoBeam])⟩

/-- C5.  The `RESET_STRUCTURAL_DAMAGE` reducer case zeroes damage,
fatigue, stress and the broken flag of every element simultaneously, and
leaves the rest of the state, the node set, foundations, material table,
element membership and every other element property unchanged. -/
theorem c5_reset_whole_model (st : SimulatorState) (m : StructuralModel)
    (h : st.structuralModel = some m) :
    ∃ m2, (resetStructuralDamage st).structuralModel = some m2 ∧
      (resetStructuralDamage st).isSimulating = st.isSimulating ∧
      m2.nodes = m.nodes ∧ m2.foundations = m.foundations ∧
      m2.materials = m.materials ∧
      m2.beams = m.beams.map resetBeamFields ∧
      ∀ beam : StructuralBeam,
        (resetBeamFields beam).damageLevel = 0 ∧
        (resetBeamFields beam).fatigueFactor = 0 ∧
        (resetBeamFields beam).isBroken = false ∧
        (resetBeamFields beam).currentStress = 0 ∧
        (resetBeamFields beam).id = beam.id ∧
        (resetBeamFields beam).nodeIds = beam.nodeIds ∧
        (resetBeamFields beam).length = beam.length ∧
        (resetBeamFields beam).width = beam.width ∧
        (resetBeamFields beam).height = beam.height ∧
        (resetBeamFields beam).material = beam.material ∧
        (resetBeamFields beam).elasticModulus = beam.elasticModulus ∧
        (resetBeamFields beam).yieldStrength = beam.yieldStrength ∧
        (resetBeamFields beam).mass = beam.mass := by
  refine ⟨{ m with beams := m.beams.map resetBeamFields }, ?_, ?_, rfl, rfl, rfl, rfl, ?_⟩
  · simp [resetStructuralDamage, h, resetBeamFields]
  · simp [resetStructuralDamage, h]
  · intro beam
    exact ⟨rfl, rfl, rfl, rfl, rfl, rfl, rfl, rfl, rfl, rfl, rfl, rfl, rfl⟩

/-- C5 witness: the reset applied to the demo state. -/
theorem c5_witness :
    demoState.structuralModel = some demoModel ∧
    ∃ m2, (resetStructuralDamage demoState).structuralModel = some m2 ∧
      m2.nodes = demoModel.nodes := by
  refine ⟨rfl, ?_⟩
  obtain ⟨m2, h1, _, h3, _, _, _, _⟩ := c5_reset_whole_model demoState demoModel rfl
  exact ⟨m2, h1, h3⟩

/-! Claim theorems for the collapse-physics core. -/

open CollapsePhysicsService

/-- Helper: the impact force equals half the mass sum times the squared
norm of the relative velocity (the source takes a square root and squares
it again). -/
theorem calculateImpactForce_eq (e1 e2 : FallingElement) :
    calculateImpactForce e1 e2 =
      0.5 * (e1.mass + e2.mass) *
        ((e1.velocity.x - e2.velocity.x) ^ 2 + (e1.velocity.y - e2.velocity.y) ^ 2 +
          (e1.velocity.z - e2.velocity.z) ^ 2) := by
  simp only [calculateImpactForce, Vec3.norm]
  rw [Real.sq_sqrt (by positivity)]

/-- Helper: the per-element activity test of the step, in propositional
form. -/
theorem elementActive_eq_true_iff (e : FallingElement) :
    elementActive e = true ↔
      (e.isOnGround = false ∨ 0.1 < |e.velocity.x| ∨ 0.1 < |e.velocity.y|
        ∨ 0.1 < |e.velocity.z|) := by
  simp [elementActive, Bool.or_eq_true, decide_eq_true_eq, Bool.not_eq_true',
    or_assoc]

/-- Helper: the integration step never changes the id of an element. -/
theorem updateFallingElement_elementId (e : FallingElement) (s : CollapseSimulation) :
    (updateFallingElement e s).elementId = e.elementId := by
  simp only [updateFallingElement]
  split <;> rfl

/-- Helper: the integration step never writes the has-collided flag. -/
theorem updateFallingElement_hasCollided (e : FallingElement) (s : CollapseSimulation) :
    (updateFallingElement e s).hasCollided = e.hasCollided := by
  simp only [updateFallingElement]
  split <;> rfl

/-- C6.  For every falling body whose integrated position reaches
`y ≤ groundLevel` while not yet on the ground, the step clamps `y` to the
ground level, records `impactEnergy = 0.5 * mass * vy^2` for the vertical
velocity at contact, multiplies both horizontal velocity components by
`1 - groundFriction`, zeroes the vertical velocity and sets the on-ground
flag. -/
theorem c6_ground_collision (element : FallingElement)
    (simulation : CollapseSimulation)
    (hg : element.isOnGround = false)
    (hy : (integratedPosition element simulation).y ≤ simulation.groundLevel) :
    updateFallingElement element simulation =
      { element with
          currentPosition := ⟨(integratedPosition element simulation).x,
            simulation.groundLevel, (integratedPosition element simulation).z⟩,
          velocity := ⟨(dragStep element simulation).x * (1 - simulation.groundFriction),
            0, (dragStep element simulation).z * (1 - simulation.groundFriction)⟩,
          isOnGround := true,
          impactEnergy := 0.5 * element.mass * (dragStep element simulation).y ^ 2 } := by
  simp only [updateFallingElement]
  rw [if_pos ⟨hy, hg⟩]

/-- C6 witness: the concrete body `fallE6` lands during the step. -/
theorem c6_witness :
    fallE6.isOnGround = false ∧
    (integratedPosition fallE6 simS6).y ≤ simS6.groundLevel ∧
    (updateFallingElement fallE6 simS6).isOnGround = true := by
  have hgrav : gravityStep fallE6 simS6 = ⟨0, -1, 0⟩ := by
    simp [gravityStep, fallE6, simS6, TIME_STEP]
  have hnorm : Vec3.norm (⟨0, -1, 0⟩ : Vec3) = 1 := by
    simp only [Vec3.norm]
    norm_num [Real.sqrt_one]
  have hdrag : dragStep fallE6 simS6 = ⟨0, -1, 0⟩ := by
    simp only [dragStep, hgrav, hnorm]
    rw [if_pos (by norm_num : (0:ℝ) < 1)]
    simp [fallE6, simS6, TIME_STEP]
  have hy : (integratedPosition fallE6 simS6).y ≤ simS6.groundLevel := by
    simp only [integratedPosition, hdrag]
    simp [fallE6, simS6, TIME_STEP]
    norm_num
  refine ⟨rfl, hy, ?_⟩
  rw [c6_ground_collision fallE6 simS6 rfl hy]

/-- C9, amended.  After a step on an active simulation, the active flag is
true exactly when some resulting body is airborne or has a velocity
component exceeding `0.1` in absolute value (the code tests per component,
not the Euclidean speed — see the counterexample). -/
theorem c9_active_iff_per_component (simulation : CollapseSimulation)
    (beams : List StructuralBeam) (nodes : List StructuralNode)
    (now : ℤ) (rand : ℕ → ℝ) (h : simulation.isActive = true) :
    ((updateCollapseSimulation simulation beams nodes now rand).isActive = true ↔
      ∃ e ∈ (updateCollapseSimulation simulation beams nodes now rand).fallingElements,
        e.isOnGround = false ∨ 0.1 < |e.velocity.x| ∨ 0.1 < |e.velocity.y|
          ∨ 0.1 < |e.velocity.z|) := by
  have hne : ¬ simulation.isActive = false := by simp [h]
  simp only [updateCollapseSimulation, if_neg hne]
  simp only [List.any_eq_true, elementActive_eq_true_iff]

/-- C9 witness for the amended claim, at the concrete active state
`simS6`. -/
theorem c9_witness :
    simS6.isActive = true ∧
    ((updateCollapseSimulation simS6 [] [] 0 (fun _ => 0)).isActive = true ↔
      ∃ e ∈ (updateCollapseSimulation simS6 [] [] 0 (fun _ => 0)).fallingElements,
        e.isOnGround = false ∨ 0.1 < |e.velocity.x| ∨ 0.1 < |e.velocity.y|
          ∨ 0.1 < |e.velocity.z|) :=
  ⟨rfl, c9_active_iff_per_component simS6 [] [] 0 (fun _ => 0) rfl⟩

/-- C10.  An inactive collapse simulation is a fixed point of the step
function: the state is returned unchanged, with the same bodies, event
log and timestamp, and no new events are emitted. -/
theorem c10_inactive_fixed_point (simulation : CollapseSimulation)
    (beams : List StructuralBeam) (nodes : List StructuralNode)
    (now : ℤ) (rand : ℕ → ℝ) (h : simulation.isActive = false) :
    updateCollapseSimulation simulation beams nodes now rand = simulation := by
  simp only [updateCollapseSimulation]
  rw [if_pos h]

/-- C10 witness: the settled demo state. -/
theorem c10_witness :
    simS10.isActive = false ∧
    updateCollapseSimulation simS10 [] [] 0 (fun _ => 0) = simS10 :=
  ⟨rfl, c10_inactive_fixed_point simS10 [] [] 0 (fun _ => 0) rfl⟩

/-- C8, amended.  For every pair of distinct bodies closer than the
collision radius, while the has-collided flag of the first body is clear, the
scan emits the event with impact force
`0.5 * (m1 + m2) * |relative velocity|^2`; but the integration step never
writes the has-collided flag (nothing in the tick does), so the "mark to
avoid duplicates" part of the claim does not happen — see the
counterexample.  Within one tick each ordered pair is scanned once, so at
most one event per ordered pair arises anyway. -/
theorem c8_collision_event_and_flag (element other : FallingElement)
    (allElements : List FallingElement) (now : ℤ) (simulation : CollapseSimulation)
    (hmem : other ∈ allElements)
    (hne : element.elementId ≠ other.elementId)
    (hdist : dist3 element.currentPosition other.currentPosition < 0.5)
    (hflag : element.hasCollided = false) :
    ({ elementId := element.elementId, collidedWith := other.elementId,
       impactForce := 0.5 * (element.mass + other.mass) *
         ((element.velocity.x - other.velocity.x) ^ 2 +
          (element.velocity.y - other.velocity.y) ^ 2 +
          (element.velocity.z - other.velocity.z) ^ 2),
       timestamp := now, position := element.currentPosition } : CollisionEvent)
      ∈ checkCollisions element allElements now ∧
    (updateFallingElement element simulation).hasCollided = element.hasCollided := by
  refine ⟨?_, updateFallingElement_hasCollided element simulation⟩
  refine List.mem_filterMap.mpr ⟨other, hmem, ?_⟩
  show collisionEventFor element other now = _
  unfold collisionEventFor
  rw [if_neg hne, if_pos ⟨hdist, hflag⟩, calculateImpactForce_eq]

/-- C8 witness: the coincident pair emits the event with the stated force
and the step leaves the flag untouched. -/
theorem c8_witness :
    fallEA.hasCollided = false ∧
    ({ elementId := fallEA.elementId, collidedWith := fallEB.elementId,
       impactForce := 0.5 * (fallEA.mass + fallEB.mass) *
         ((fallEA.velocity.x - fallEB.velocity.x) ^ 2 +
          (fallEA.velocity.y - fallEB.velocity.y) ^ 2 +
          (fallEA.velocity.z - fallEB.velocity.z) ^ 2),
       timestamp := 0, position := fallEA.currentPosition } : CollisionEvent)
      ∈ checkCollisions fallEA [fallEA, fallEB] 0 ∧
    (updateFallingElement fallEA simS8).hasCollided = fallEA.hasCollided := by
  have h := c8_collision_event_and_flag fallEA fallEB [fallEA, fallEB] 0 simS8
    (List.mem_cons_of_mem fallEA (List.mem_singleton.mpr rfl))
    (by simp [fallEA, fallEB])
    (by simp only [dist3, fallEA, fallEB]; norm_num [Real.sqrt_zero])
    rfl
  exact ⟨rfl, h.1, h.2⟩

/-- C8 counterexample.  On the coincident pair, the step emits the two
collision events, yet both resulting bodies still have
`hasCollided = false`: no body is ever marked has-collided (the flag is
read but never written), contradicting the marking part of the claim. -/
theorem c8_counterexample :
    ((updateCollapseSimulation simS8 [] [] 0 (fun _ => 0)).collisionEvents.map
      (fun e => (e.elementId, e.collidedWith))) = [("FA", "FB"), ("FB", "FA")] ∧
    ((updateCollapseSimulation simS8 [] [] 0 (fun _ => 0)).fallingElements.map
      (fun e => e.hasCollided)) = [false, false] := by
  have hgravA : gravityStep fallEA simS8 = ⟨0, 0, 0⟩ := by
    simp [gravityStep, fallEA, simS8, TIME_STEP]
  have hgravB : gravityStep fallEB simS8 = ⟨0, 0, 0⟩ := by
    simp [gravityStep, fallEB, simS8, TIME_STEP]
  have hnorm0 : Vec3.norm (⟨0, 0, 0⟩ : Vec3) = 0 := by
    simp only [Vec3.norm]
    norm_num [Real.sqrt_zero]
  have hdragA : dragStep fallEA simS8 = ⟨0, 0, 0⟩ := by
    simp only [dragStep, hgravA, hnorm0]
    rw [if_neg (lt_irrefl 0)]
  have hdragB : dragStep fallEB simS8 = ⟨0, 0, 0⟩ := by
    simp only [dragStep, hgravB, hnorm0]
    rw [if_neg (lt_irrefl 0)]
  have hintA : integratedPosition fallEA simS8 = ⟨0, 5, 0⟩ := by
    simp only [integratedPosition, hdragA]
    simp [fallEA, TIME_STEP]
  have hintB : integratedPosition fallEB simS8 = ⟨0, 5, 0⟩ := by
    simp only [integratedPosition, hdragB]
    simp [fallEB, TIME_STEP]
  have hupdA : updateFallingElement fallEA simS8 = fallEA := by
    simp only [updateFallingElement, hdragA, hintA]
    rw [if_neg (by rintro ⟨h5, _⟩; norm_num [simS8] at h5)]
    simp [fallEA]
  have hupdB : updateFallingElement fallEB simS8 = fallEB := by
    simp only [updateFallingElement, hdragB, hintB]
    rw [if_neg (by rintro ⟨h5, _⟩; norm_num [simS8] at h5)]
    simp [fallEB]
  have hdAB : dist3 fallEA.currentPosition fallEB.currentPosition < 0.5 := by
    simp only [dist3, fallEA, fallEB]
    norm_num [Real.sqrt_zero]
  have hdBA : dist3 fallEB.currentPosition fallEA.currentPosition < 0.5 := by
    simp only [dist3, fallEA, fallEB]
    norm_num [Real.sqrt_zero]
  have hAA : collisionEventFor fallEA fallEA (0 : ℤ) = none := by
    unfold collisionEventFor
    exact if_pos rfl
  have hBB : collisionEventFor fallEB fallEB (0 : ℤ) = none := by
    unfold collisionEventFor
    exact if_pos rfl
  have hAB : collisionEventFor fallEA fallEB (0 : ℤ) =
      some { elementId := fallEA.elementId, collidedWith := fallEB.elementId,
             impactForce := calculateImpactForce fallEA fallEB, timestamp := 0,
             position := fallEA.currentPosition } := by
    unfold collisionEventFor
    rw [if_neg (by simp [fallEA, fallEB]), if_pos ⟨hdAB, rfl⟩]
  have hBA : collisionEventFor fallEB fallEA (0 : ℤ) =
      some { elementId := fallEB.elementId, collidedWith := fallEA.elementId,
             impactForce := calculateImpactForce fallEB fallEA, timestamp := 0,
             position := fallEB.currentPosition } := by
    unfold collisionEventFor
    rw [if_neg (by simp [fallEA, fallEB]), if_pos ⟨hdBA, rfl⟩]
  have hfe : simS8.fallingElements = [fallEA, fallEB] := rfl
  have hce : simS8.collisionEvents = [] := rfl
  have hstep : updateCollapseSimulation simS8 [] [] 0 (fun _ => 0) =
      { simS8 with
          fallingElements := [fallEA, fallEB],
          collisionEvents :=
            [{ elementId := fallEA.elementId, collidedWith := fallEB.elementId,
               impactForce := calculateImpactForce fallEA fallEB, timestamp := 0,
               position := fallEA.currentPosition },
             { elementId := fallEB.elementId, collidedWith := fallEA.elementId,
               impactForce := calculateImpactForce fallEB fallEA, timestamp := 0,
               position := fallEB.currentPosition }],
          isActive := true, timestamp := 0 } := by
    have hactA : elementActive fallEA = true := by
      simp [elementActive, fallEA]
    simp only [updateCollapseSimulation]
    rw [if_neg (by simp [simS8])]
    simp only [hfe, hce, List.map_cons, List.map_nil, hupdA, hupdB, checkCollisions,
      List.filterMap_cons, List.filterMap_nil, hAA, hAB, hBA, hBB,
      addNewFallingElements, List.flatten_cons, List.flatten_nil,
      List.nil_append, List.append_nil, List.cons_append, List.foldl_cons,
      List.foldl_nil, List.find?_nil, List.any_cons, List.any_nil,
      hactA, Bool.true_or]
  rw [hstep]
  constructor
  · simp [fallEA, fallEB]
  · simp [fallEA, fallEB]

/-- C9 counterexample.  After the step on `simS9`, the single body is on
the ground with velocity `(0.08, 0, 0.08)`: its Euclidean speed
`sqrt 0.0128 ≈ 0.113` exceeds the epsilon `0.1`, yet the step sets
`isActive = false`, because the code tests each velocity component
(`|v| > 0.1`) rather than the speed — refuting the
"speed above a fixed epsilon" reading of the active predicate. -/
theorem c9_counterexample :
    (updateCollapseSimulation simS9 [] [] 0 (fun _ => 0)).isActive = false ∧
    ((updateCollapseSimulation simS9 [] [] 0 (fun _ => 0)).fallingElements.map
      (fun e => e.isOnGround)) = [true] ∧
    ((updateCollapseSimulation simS9 [] [] 0 (fun _ => 0)).fallingElements.map
      (fun e => Vec3.norm e.velocity)) = [Real.sqrt 0.0128] ∧
    (0.1 : ℝ) < Real.sqrt 0.0128 := by
  have hgrav9 : gravityStep fallE9 simS9 = ⟨0.08, 0, 0.08⟩ := by
    simp [gravityStep, fallE9, simS9, TIME_STEP]
  have hnorm9 : Vec3.norm (⟨0.08, 0, 0.08⟩ : Vec3) = Real.sqrt 0.0128 := by
    simp only [Vec3.norm]
    norm_num
  have hsp9 : (0 : ℝ) < Real.sqrt 0.0128 := Real.sqrt_pos.mpr (by norm_num)
  have hdrag9 : dragStep fallE9 simS9 = ⟨0.08, 0, 0.08⟩ := by
    simp only [dragStep, hgrav9, hnorm9]
    rw [if_pos hsp9]
    simp [fallE9, simS9, TIME_STEP]
  have hint9 : integratedPosition fallE9 simS9 = ⟨0.00128, 0, 0.00128⟩ := by
    simp only [integratedPosition, hdrag9]
    simp [fallE9, TIME_STEP]
    norm_num
  have hupd9 : updateFallingElement fallE9 simS9 =
      { fallE9 with currentPosition := ⟨0.00128, 0, 0.00128⟩,
                    velocity := ⟨0.08, 0, 0.08⟩ } := by
    simp only [updateFallingElement, hdrag9, hint9]
    rw [if_neg (by rintro ⟨_, hfo⟩; simp [fallE9] at hfo)]
  have h99 : collisionEventFor
      ({ fallE9 with currentPosition := ⟨0.00128, 0, 0.00128⟩, velocity := ⟨0.08, 0, 0.08⟩ } : FallingElement)
      fallE9 (0 : ℤ) = none := by
    unfold collisionEventFor
    exact if_pos rfl
  have hact9 : elementActive
      ({ fallE9 with currentPosition := ⟨0.00128, 0, 0.00128⟩, velocity := ⟨0.08, 0, 0.08⟩ } : FallingElement)
        = false := by
    simp only [elementActive, Bool.or_eq_false_iff, Bool.not_eq_false',
      decide_eq_false_iff_not, not_lt]
    norm_num [fallE9, abs_le]
  have hfe : simS9.fallingElements = [fallE9] := rfl
  have hce : simS9.collisionEvents = [] := rfl
  have hstep : updateCollapseSimulation simS9 [] [] 0 (fun _ => 0) =
      { simS9 with
          fallingElements :=
            [{ fallE9 with currentPosition := ⟨0.00128, 0, 0.00128⟩, velocity := ⟨0.08, 0, 0.08⟩ }],
          collisionEvents := [],
          isActive := false, timestamp := 0 } := by
    simp only [updateCollapseSimulation]
    rw [if_neg (by simp [simS9])]
    simp only [hfe, hce, List.map_cons, List.map_nil, checkCollisions,
      List.filterMap_cons, List.filterMap_nil, h99, hupd9,
      addNewFallingElements, List.flatten_cons, List.flatten_nil,
      List.nil_append, List.append_nil, List.foldl_nil,
      List.any_cons, List.any_nil, hact9, Bool.false_or, Bool.or_false]
  rw [hstep]
  refine ⟨rfl, by simp [fallE9], by simp [hnorm9], ?_⟩
  rw [show (0.1 : ℝ) < Real.sqrt 0.0128 ↔ (0.1 : ℝ) ^ 2 < 0.0128 from
    Real.lt_sqrt (by norm_num)]
  norm_num

/-- C7.  The secondary-breakage condition does fire for the settled body
`fallE7` (stored impact energy `2500 J > 2 * 1000 J`) against the intact
beam `beamB7` whose centroid coincides with it: `checkImpactDamage`
returns the beam marked broken with full damage.  But the tick discards
that return value: the output of the step contains no new falling body for
`"B7"`, no event, and (being pure in its beams argument) leaves the beam
list untouched — secondary breakage never takes effect in the resulting
state. -/
theorem c7_impact_damage_discarded :
    ((checkImpactDamage (updateFallingElement fallE7 simS7) [beamB7] nodesN7).map
      (fun b => (b.id, b.isBroken, b.damageLevel))) = [("B7", true, 1)] ∧
    ((updateCollapseSimulation simS7 [beamB7] nodesN7 0 (fun _ => 0)).fallingElements.map
      (fun e => e.elementId)) = ["F7"] ∧
    (updateCollapseSimulation simS7 [beamB7] nodesN7 0 (fun _ => 0)).collisionEvents = [] ∧
    ((updateCollapseSimulation simS7 [beamB7] nodesN7 0 (fun _ => 0)).fallingElements.map
      (fun e => e.isOnGround)) = [true] := by
  have hgrav7 : gravityStep fallE7 simS7 = ⟨0, 0, 0⟩ := by
    simp [gravityStep, fallE7, simS7, TIME_STEP]
  have hnorm0 : Vec3.norm (⟨0, 0, 0⟩ : Vec3) = 0 := by
    simp only [Vec3.norm]
    norm_num [Real.sqrt_zero]
  have hdrag7 : dragStep fallE7 simS7 = ⟨0, 0, 0⟩ := by
    simp only [dragStep, hgrav7, hnorm0]
    rw [if_neg (lt_irrefl 0)]
  have hint7 : integratedPosition fallE7 simS7 = ⟨0, 0, 0⟩ := by
    simp only [integratedPosition, hdrag7]
    simp [fallE7, TIME_STEP]
  have hupd7 : updateFallingElement fallE7 simS7 = fallE7 := by
    simp only [updateFallingElement, hdrag7, hint7]
    rw [if_neg (by rintro ⟨_, hfo⟩; simp [fallE7] at hfo)]
    simp [fallE7]
  have hfA : findNode nodesN7 beamB7.nodeIds.1 = some nodeN7A := by
    simp [findNode, nodesN7, nodeN7A, beamB7]
  have hfB : findNode nodesN7 beamB7.nodeIds.2 = some nodeN7B := by
    simp [findNode, nodesN7, nodeN7A, nodeN7B, beamB7]
  have hbc : beamCenter nodeN7A nodeN7B = ⟨0, 0, 0⟩ := by
    simp only [beamCenter, nodeN7A, nodeN7B]
    norm_num
  have hdist7 : dist3 fallE7.currentPosition (beamCenter nodeN7A nodeN7B) < 3 := by
    rw [hbc]
    simp only [dist3, fallE7]
    norm_num [Real.sqrt_zero]
  have himp : impactDamagedBeam fallE7 nodesN7 beamB7 =
      some { beamB7 with isBroken := true, damageLevel := 1 } := by
    unfold impactDamagedBeam
    rw [if_neg (by simp [beamB7])]
    rw [hfA, hfB]
    simp only []
    rw [if_pos ⟨hdist7, by norm_num [fallE7]⟩]
  have hcid : checkImpactDamage (updateFallingElement fallE7 simS7) [beamB7] nodesN7 =
      [{ beamB7 with isBroken := true, damageLevel := 1 }] := by
    rw [hupd7]
    unfold checkImpactDamage
    rw [if_pos (by norm_num [fallE7] : fallE7.impactEnergy > 1000)]
    simp [List.filterMap_cons, List.filterMap_nil, himp]
  have h77 : collisionEventFor fallE7 fallE7 (0 : ℤ) = none := by
    unfold collisionEventFor
    exact if_pos rfl
  have hact7 : elementActive fallE7 = false := by
    simp only [elementActive, Bool.or_eq_false_iff, Bool.not_eq_false',
      decide_eq_false_iff_not, not_lt]
    norm_num [fallE7, abs_le]
  have hfe : simS7.fallingElements = [fallE7] := rfl
  have hce : simS7.collisionEvents = [] := rfl
  have hstep : updateCollapseSimulation simS7 [beamB7] nodesN7 0 (fun _ => 0) =
      { simS7 with fallingElements := [fallE7], collisionEvents := [],
                   isActive := false, timestamp := 0 } := by
    simp only [updateCollapseSimulation]
    rw [if_neg (by simp [simS7])]
    simp only [hfe, hce, List.map_cons, List.map_nil, hupd7, checkCollisions,
      List.filterMap_cons, List.filterMap_nil, h77,
      addNewFallingElements, List.flatten_cons, List.flatten_nil,
      List.nil_append, List.append_nil, List.foldl_nil,
      List.any_cons, List.any_nil, hact7, Bool.false_or, Bool.or_false]
  refine ⟨?_, ?_, ?_, ?_⟩
  · rw [hcid]
    simp [beamB7]
  · rw [hstep]
    simp [fallE7]
  · rw [hstep]
  · rw [hstep]
    simp [fallE7]

/-- C2 witness for the amended claim, at the dangling demo model. -/
theorem c2_witness :
    danglingBeam ∈ danglingModel.beams ∧
    (StructuralAnalysisService.validateStructure danglingModel).isValid = false ∧
    hookAnalyzeStructure (some danglingModel) (fun _ => 1/2) ≠ none := by
  have h := c2_validation_flags_dangling danglingModel danglingBeam
    (List.mem_singleton.mpr rfl) (by decide)
  exact ⟨List.mem_singleton.mpr rfl, h.1, h.2.2 (fun _ => 1/2)⟩
